import Mathlib

/-!
Shallow embedding of the GeoPy repository's core vector abstraction
(`src/core/vector.py`, class `Vector`) together with its 2-D
specialization (`src/two_d/point.py`, class `Point`).

Modelling choices, stated once:

* numpy `float64` coordinates are modelled as rationals (`ℚ`); the only
  operation whose result leaves ℚ is `math.sqrt`, modelled as `Real.sqrt`.
* Python exceptions are modelled by an `Except PyError` result; the
  `PyError` constructors carry the Python exception class that the code
  raises (the natural-language spec gives these its own names, e.g. its
  `UnsupportedOperationError` is the code's `NotImplementedError`, its
  `DimensionMismatchError` is the code's `ValueError`, and its
  `UnsupportedOperandError`/`TypeMismatchError` are the code's `TypeError`).
* the Python runtime class of an instance (`self.__class__`, used by the
  code both to re-wrap results and in `isinstance` checks) is modelled as
  a tag `VClass` carried inside every instance.
* numpy 1-D broadcasting between two arrays (equal lengths, or either
  side of length one) is modelled by `broadcastPairs`; a numpy elementwise
  operation against a non-array, non-scalar foreign object (which numpy
  turns into a 0-d object array whose element supports no reflected
  arithmetic with floats, so a `TypeError` is raised) is modelled as a
  `TypeError`.
* IEEE division by zero does not raise in numpy: it emits a
  `RuntimeWarning` and produces `inf`/`nan`.  Warnings are not
  exceptions, so the model returns an ordinary (`Except.ok`) result
  there; the junk payload at a zero denominator is `ℚ`'s `x / 0 = 0`
  where numpy would store a non-finite float.  Every claim about zero
  division concerns only whether an exception is raised, never the
  non-finite payload itself.
-/

namespace GeoPy

/-- Python exception classes actually raised by the code under `src/`. -/
inductive PyError where
  | typeError
  | valueError
  | notImplementedError
  | attributeError
deriving DecidableEq

/-- The runtime class of an instance: the base class `Vector`
(`src/core/vector.py`) or its subclass `Point` (`src/two_d/point.py`). -/
inductive VClass where
  | vector
  | point
deriving DecidableEq

/-- An instance of `Vector` (or of its subclass `Point`): the runtime
class tag, the `self.coordinates` numpy array, and the optional
`self.name` label set by `__init__`. -/
structure Vector where
  cls : VClass
  coordinates : List ℚ
  name : Option String
deriving DecidableEq

/-- Python `isinstance(x, target)` on the two classes of the repository:
`Point` is a subclass of `Vector`, so every instance is an instance of
`Vector`, while only `Point`-tagged instances are instances of `Point`. -/
def isinstanceOf (instCls target : VClass) : Bool :=
  match instCls, target with
  | _, .vector => true
  | .point, .point => true
  | .vector, .point => false

/-- Constructor dispatch `cls(coordinates)`.  `Vector.__init__` stores the
coordinates (as a fresh `float64` array) and the name; `Point.__init__`
(`src/two_d/point.py`) first raises `ValueError` unless exactly two
coordinates are given, then delegates to `Vector.__init__`. -/
def mkInstance (cls : VClass) (coords : List ℚ) (name : Option String) :
    Except PyError Vector :=
  match cls with
  | .vector => .ok ⟨.vector, coords, name⟩
  | .point =>
      if coords.length = 2 then .ok ⟨.point, coords, name⟩
      else .error .valueError

/-- The right-hand operand universe of the binary methods: a raw sequence
(`tuple`/`list`/`np.ndarray` of numbers), a numeric scalar (`int`/`float`),
a `str`, a `dict`, or an instance of `Vector`/`Point`. -/
inductive Operand where
  | raw (l : List ℚ)
  | scalar (x : ℚ)
  | text
  | mapping
  | inst (v : Vector)
deriving DecidableEq

/-- The possible successful results of `Vector.to_class`: an instance, or
a scalar passed through untouched. -/
inductive Coerced where
  | inst (v : Vector)
  | scalar (x : ℚ)
deriving DecidableEq

/-- `Vector.to_class(cls, item, no_scalar=False)` (`src/core/vector.py`):
a raw `tuple`/`list`/`np.ndarray` is passed to the calling class's
constructor; a `str` or `dict` raises `TypeError`; otherwise the code
tries `item.vector()` — `Point` provides it (returning a base
`Vector(self.coordinates)`, hence with `name=None`), while a base
`Vector` instance and a scalar do not, so the `AttributeError` is caught
and the item is returned unchanged, unless `no_scalar` is set, in which
case a `TypeError` is raised instead. -/
def to_class (cls : VClass) (item : Operand) (no_scalar : Bool) :
    Except PyError Coerced :=
  match item with
  | .raw l => (mkInstance cls l none).map Coerced.inst
  | .text => .error .typeError
  | .mapping => .error .typeError
  | .inst v =>
      match v.cls with
      | .point => .ok (.inst ⟨.vector, v.coordinates, none⟩)
      | .vector =>
          if no_scalar then .error .typeError else .ok (.inst v)
  | .scalar x =>
      if no_scalar then .error .typeError else .ok (.scalar x)

/-- `Vector.check_class(cls, item)`: raises `TypeError` unless `item` is
an instance of `cls`. -/
def check_class (cls : VClass) (item : Coerced) : Except PyError Unit :=
  match item with
  | .inst v => if isinstanceOf v.cls cls then .ok () else .error .typeError
  | .scalar _ => .error .typeError

/-- Sum of squared per-axis differences,
`sum(map(lambda x, x2: (x2 - x)**2, self.coordinates, origin.coordinates))`
(a two-iterable `map` zips the sequences). -/
def sumSqDiff (a b : List ℚ) : ℚ :=
  ((a.zip b).map (fun p => (p.2 - p.1) ^ 2)).sum

/-- Sum of squared coordinates (the `sumSqDiff` against the zero origin). -/
def sumSq (l : List ℚ) : ℚ :=
  (l.map (fun x => x ^ 2)).sum

/-- The value `math.sqrt(sumSqDiff ...)` computed by `Vector.distance`. -/
noncomputable def distanceVal (selfCoords originCoords : List ℚ) : ℝ :=
  Real.sqrt ((sumSqDiff selfCoords originCoords : ℚ) : ℝ)

/-- `Vector.distance(origin=None)` (`src/core/vector.py`): with no origin,
an origin `self.__class__([0]*self.d)` is built; an explicit origin is
passed through `to_class` first.  A scalar passing through the coercion
has no `.d` attribute, so reading `origin.d` raises `AttributeError`.
If the origin's length differs from `self`'s, `ValueError` is raised
(the spec's `DimensionMismatchError`); otherwise the result is
`math.sqrt` of the sum of squared per-axis differences. -/
noncomputable def distance (v : Vector) (origin : Option Operand) :
    Except PyError ℝ :=
  match origin with
  | none =>
      match mkInstance v.cls (List.replicate v.coordinates.length 0) none with
      | .error e => .error e
      | .ok o =>
          if o.coordinates.length ≠ v.coordinates.length then
            .error .valueError
          else .ok (distanceVal v.coordinates o.coordinates)
  | some item =>
      match to_class v.cls item false with
      | .error e => .error e
      | .ok (.inst o) =>
          if o.coordinates.length ≠ v.coordinates.length then
            .error .valueError
          else .ok (distanceVal v.coordinates o.coordinates)
      | .ok (.scalar _) => .error .attributeError

/-- The magnitude `self.distance()` of a well-formed instance: the L2 norm
of the coordinates. -/
noncomputable def magnitude (v : Vector) : ℝ :=
  Real.sqrt ((sumSq v.coordinates : ℚ) : ℝ)

/-- `Vector.copy(order="C")`: `self.__class__(self.coordinates.copy(order))`
— numpy's `.copy()` allocates fresh, independent storage for the
coordinates (in this functional embedding all values are immutable, so
storage independence is automatic), and the `name` argument is not
forwarded, so the new instance gets the constructor default `None`. -/
def copy (v : Vector) : Except PyError Vector :=
  mkInstance v.cls v.coordinates none

/-- `Vector.__delitem__(key)`: unconditionally raises
`NotImplementedError` (the spec's `UnsupportedOperationError`); the
instance is never touched, so its coordinates and dimensionality are
unchanged afterwards. -/
def delitem (_v : Vector) (_key : Nat) : Except PyError Vector :=
  .error .notImplementedError

/-- The numpy dtype of `self.coordinates`.  `Vector.__init__` always runs
`np.array(coordinates, dtype=float)`, so every instance holds a `float64`
array. -/
inductive NpDtype where
  | float64
deriving DecidableEq

/-- The dtype of an instance's coordinate array: always `float64` by
construction. -/
def coordDtype (_v : Vector) : NpDtype := .float64

/-- Whether numpy defines the `invert` ufunc (`~`) on a dtype: it does
not for floating-point dtypes (`TypeError: ufunc 'invert' not supported`). -/
def npSupportsInvert (d : NpDtype) : Bool :=
  match d with
  | .float64 => false

/-- numpy `ndarray.__invert__` on a 1-D array: bitwise inversion
(`~x = -x - 1` on integer dtypes) when the dtype supports it, `TypeError`
otherwise. -/
def ndarrayInvert (d : NpDtype) (l : List ℚ) : Except PyError (List ℚ) :=
  if npSupportsInvert d then .ok (l.map (fun x => -x - 1))
  else .error .typeError

/-- `Vector.__invert__`: `self.__class__(self.coordinates.__invert__())`.
Since the coordinate array is always `float64`, the numpy call always
raises `TypeError` before any re-wrapping happens. -/
def invert (v : Vector) : Except PyError Vector :=
  match ndarrayInvert (coordDtype v) v.coordinates with
  | .error e => .error e
  | .ok l => mkInstance v.cls l none

/-- numpy 1-D broadcasting between two arrays: defined when the lengths
agree or either side has length one; otherwise the operands cannot be
broadcast together and numpy raises `ValueError`. -/
def broadcastPairs (a b : List ℚ) : Option (List (ℚ × ℚ)) :=
  if a.length = b.length then some (a.zip b)
  else
    match a, b with
    | a, [y] => some (a.map (fun x => (x, y)))
    | [x], b => some (b.map (fun y => (x, y)))
    | _, _ => none

/-- The seven elementwise binary arithmetic operators of `Vector`.  The
dot product `@` (`__matmul__`) is modelled separately because it does not
re-wrap its result. -/
inductive BinOp where
  | add
  | sub
  | mul
  | truediv
  | floordiv
  | mod
  | pow
deriving DecidableEq

/-- Float power, modelled on ℚ.  For an integer exponent this is the
exact power (with ℚ's `0 ^ (-n) = 0` junk where numpy would produce
`inf` and a warning); a non-integer exponent generally has no rational
value (numpy computes a float approximation), so the model returns a
junk value there — no claim depends on `**`'s numeric payload. -/
def npPow (x y : ℚ) : ℚ :=
  if y.den = 1 then x ^ y.num else 0

/-- The scalar function each `BinOp` applies per coordinate, following
numpy float semantics on exact inputs.  Division, floor division and
modulus at a zero denominator do not raise in numpy (a `RuntimeWarning`
plus `inf`/`nan` results); the model's junk values there come from ℚ's
`x / 0 = 0`. -/
def elemFn (op : BinOp) (x y : ℚ) : ℚ :=
  match op with
  | .add => x + y
  | .sub => x - y
  | .mul => x * y
  | .truediv => x / y
  | .floordiv => (Int.floor (x / y) : ℚ)
  | .mod => x - y * (Int.floor (x / y) : ℚ)
  | .pow => npPow x y

/-- The shared template of `Vector.__add__`, `__sub__`, `__mul__`,
`__truediv__`, `__floordiv__`, `__mod__` and `__pow__`:
`other = self.to_class(other)`; then
`other = other.coordinates if isinstance(other, self.__class__) else other`;
then `self.__class__(self.coordinates.OP(other))`.  A coerced instance
that is not an instance of the receiver's runtime class stays a foreign
object inside the numpy call, which raises `TypeError`; a scalar is
broadcast; two arrays follow numpy broadcasting, with `ValueError` when
the shapes cannot broadcast. -/
def binop (op : BinOp) (v : Vector) (other : Operand) :
    Except PyError Vector :=
  match to_class v.cls other false with
  | .error e => .error e
  | .ok (.inst w) =>
      if isinstanceOf w.cls v.cls then
        match broadcastPairs v.coordinates w.coordinates with
        | none => .error .valueError
        | some ps => mkInstance v.cls (ps.map (fun p => elemFn op p.1 p.2)) none
      else .error .typeError
  | .ok (.scalar x) =>
      mkInstance v.cls (v.coordinates.map (fun c => elemFn op c x)) none

/-- The 1-D dot product `np.ndarray.__matmul__` computes on two arrays of
equal length. -/
def dotQ (a b : List ℚ) : ℚ :=
  ((a.zip b).map (fun p => p.1 * p.2)).sum

/-- `Vector.__matmul__`: same coercion and extraction template as the
other arithmetic operators, but the numpy result — the dot product, a
bare scalar — is returned without being re-wrapped into an instance.
numpy's `matmul` accepts no scalar operand (`ValueError`) and no length
mismatch between 1-D operands (`ValueError`). -/
def matmul (v : Vector) (other : Operand) : Except PyError ℚ :=
  match to_class v.cls other false with
  | .error e => .error e
  | .ok (.inst w) =>
      if isinstanceOf w.cls v.cls then
        if v.coordinates.length = w.coordinates.length then
          .ok (dotQ v.coordinates w.coordinates)
        else .error .valueError
      else .error .typeError
  | .ok (.scalar _) => .error .valueError

/-- `Vector.__eq__`: coerce the operand, `check_class` it, then return
`(self.coordinates == other.coordinates).all()` — numpy elementwise
equality (with 1-D broadcasting) reduced with logical AND.  For
non-broadcastable shapes numpy's `==` returns a scalar `False` (with a
warning) rather than raising; no claim exercises that corner. -/
def eqOp (v : Vector) (other : Operand) : Except PyError Bool :=
  match to_class v.cls other false with
  | .error e => .error e
  | .ok c =>
      match check_class v.cls c with
      | .error e => .error e
      | .ok _ =>
          match c with
          | .inst w =>
              match broadcastPairs v.coordinates w.coordinates with
              | none => .ok false
              | some ps => .ok (ps.all (fun p => decide (p.1 = p.2)))
          | .scalar _ => .ok false

/-- The shared prefix of `Vector.__gt__`/`__lt__`/`__le__`/`__ge__`:
coerce the operand, `check_class` it, then compute `self.distance()` and
`other.distance()`; the four operators differ only in which comparison
they apply to this pair of distances. -/
noncomputable def cmpDistance (v : Vector) (other : Operand) :
    Except PyError (ℝ × ℝ) :=
  match to_class v.cls other false with
  | .error e => .error e
  | .ok c =>
      match check_class v.cls c with
      | .error e => .error e
      | .ok _ =>
          match c with
          | .inst w =>
              match distance v none with
              | .error e => .error e
              | .ok d1 =>
                  match distance w none with
                  | .error e => .error e
                  | .ok d2 => .ok (d1, d2)
          | .scalar _ => .error .typeError

/-- `Vector.__lt__`: `self.distance() < other.distance()`. -/
noncomputable def ltOp (v : Vector) (other : Operand) : Except PyError Prop :=
  (cmpDistance v other).map (fun p => p.1 < p.2)

/-- `Vector.__gt__`: `self.distance() > other.distance()`. -/
noncomputable def gtOp (v : Vector) (other : Operand) : Except PyError Prop :=
  (cmpDistance v other).map (fun p => p.1 > p.2)

/-- `Vector.__le__`: `self.distance() <= other.distance()`. -/
noncomputable def leOp (v : Vector) (other : Operand) : Except PyError Prop :=
  (cmpDistance v other).map (fun p => p.1 ≤ p.2)

/-- `Vector.__ge__`: `self.distance() >= other.distance()`. -/
noncomputable def geOp (v : Vector) (other : Operand) : Except PyError Prop :=
  (cmpDistance v other).map (fun p => p.1 ≥ p.2)

/-- The `Point.x` property (`src/two_d/point.py`): `self.coordinates[0]`,
`none` modelling the `IndexError` on an empty array. -/
def xCoord (v : Vector) : Option ℚ := v.coordinates.get? 0

/-- The `Point.y` property: `self.coordinates[1]`. -/
def yCoord (v : Vector) : Option ℚ := v.coordinates.get? 1

end GeoPy

namespace GeoPy

/-! ### Helper lemmas -/

/-- The constructor tags its result with the calling class. -/
theorem mkInstance_cls {cls : VClass} {l : List ℚ} {nm : Option String}
    {r : Vector} (h : mkInstance cls l nm = .ok r) : r.cls = cls := by
  cases cls with
  | vector =>
      simp only [mkInstance] at h
      cases h
      rfl
  | point =>
      simp only [mkInstance] at h
      split at h
      · cases h
        rfl
      · cases h

/-- Measuring against the implicit zero origin squares each coordinate. -/
theorem sumSqDiff_replicate_zero (c : List ℚ) :
    sumSqDiff c (List.replicate c.length 0) = sumSq c := by
  induction c with
  | nil => rfl
  | cons x xs ih =>
      simp only [sumSqDiff, sumSq, List.length_cons, List.replicate_succ,
        List.zip_cons_cons, List.map_cons, List.sum_cons] at ih ⊢
      rw [ih]
      ring_nf

/-- `self.distance()` of a base-class instance is its magnitude. -/
theorem distance_none_vector {v : Vector} (hv : v.cls = .vector) :
    distance v none = .ok (magnitude v) := by
  obtain ⟨cls, coords, nm⟩ := v
  cases hv
  simp [distance, mkInstance, distanceVal, magnitude, sumSqDiff_replicate_zero]

/-- Conjunction over a zip of equal-length lists is list equality. -/
theorem zip_all_decide (a : List ℚ) :
    ∀ b : List ℚ, a.length = b.length →
      ((a.zip b).all fun p => decide (p.1 = p.2)) = decide (a = b) := by
  induction a with
  | nil =>
      intro b h
      cases b with
      | nil => simp
      | cons y ys => simp at h
  | cons x xs ih =>
      intro b h
      cases b with
      | nil => simp at h
      | cons y ys =>
          simp only [List.zip_cons_cons, List.all_cons]
          rw [ih ys (by simpa using h)]
          by_cases hxy : x = y <;> by_cases hxs : xs = ys <;>
            simp [hxy, hxs]

end GeoPy

namespace GeoPy

/-! ### Claim theorems -/

/-- Claim C1: the coercion protocol `to_class` maps a raw sequence
(tuple/list/array) to a new instance of the calling class built by that
class's constructor, raises `TypeError` on `str` and `dict`, returns
`item.vector()` when the operand provides that conversion (only `Point`
does), and otherwise returns the operand unchanged in non-strict mode
while raising `TypeError` in strict (`no_scalar`) mode. -/
theorem toClass_protocol :
    (∀ (cls : VClass) (b : Bool) (l : List ℚ),
        to_class cls (.raw l) b = (mkInstance cls l none).map Coerced.inst)
    ∧ (∀ (cls : VClass) (b : Bool),
        to_class cls .text b = .error .typeError
        ∧ to_class cls .mapping b = .error .typeError)
    ∧ (∀ (cls : VClass) (b : Bool) (v : Vector), v.cls = .point →
        to_class cls (.inst v) b = .ok (.inst ⟨.vector, v.coordinates, none⟩))
    ∧ (∀ (cls : VClass) (v : Vector), v.cls = .vector →
        to_class cls (.inst v) false = .ok (.inst v))
    ∧ (∀ (cls : VClass) (x : ℚ),
        to_class cls (.scalar x) false = .ok (.scalar x))
    ∧ (∀ (cls : VClass) (v : Vector), v.cls = .vector →
        to_class cls (.inst v) true = .error .typeError)
    ∧ (∀ (cls : VClass) (x : ℚ),
        to_class cls (.scalar x) true = .error .typeError) := by
  refine ⟨fun cls b l => rfl, fun cls b => ⟨rfl, rfl⟩, ?_, ?_, fun cls x => rfl,
    ?_, fun cls x => rfl⟩
  · intro cls b v hv
    simp [to_class, hv]
  · intro cls v hv
    simp [to_class, hv]
  · intro cls v hv
    simp [to_class, hv]

/-- Witness for C1 at a concrete input: coercing a `Point` instance calls
its `vector()` conversion. -/
theorem toClass_protocol_witness :
    to_class .vector (.inst ⟨.point, [1, 2], none⟩) false
      = .ok (.inst ⟨.vector, [1, 2], none⟩) :=
  toClass_protocol.2.2.1 .vector false ⟨.point, [1, 2], none⟩ rfl

/-- Claim C8: deleting a coordinate always raises (`NotImplementedError`,
the spec's `UnsupportedOperationError`); the instance is returned to the
caller untouched, so coordinates and dimensionality are unchanged. -/
theorem delitem_always_fails (v : Vector) (key : Nat) :
    delitem v key = .error .notImplementedError := rfl

/-- Claim C9: the constructor stores every coordinate array with dtype
`float64`, which numpy's bitwise-invert ufunc does not support, so the
success branch of `~` (re-wrapping the inverted coordinates into the
receiver's runtime class) is unreachable and `__invert__` always raises
(`TypeError`, the spec's `UnsupportedOperationError`). -/
theorem invert_unsupported_on_float (v : Vector) :
    npSupportsInvert (coordDtype v) = false
    ∧ invert v = .error .typeError :=
  ⟨rfl, rfl⟩

/-- Claim C10: `copy()` rebuilds an instance of the receiver's runtime
class from a fresh copy of the coordinate array (storage independence is
automatic in this immutable embedding) but does not forward `self.name`,
so the copy's name is always `None`. -/
theorem copy_same_class_drops_name (v : Vector)
    (h : v.cls = .point → v.coordinates.length = 2) :
    copy v = .ok ⟨v.cls, v.coordinates, none⟩ := by
  obtain ⟨cls, coords, nm⟩ := v
  cases cls with
  | vector => rfl
  | point =>
      simp only [copy, mkInstance, h rfl, if_pos]

/-- Witness for C10: copying a named point keeps class and coordinates
and clears the name. -/
theorem copy_same_class_drops_name_witness :
    copy ⟨.point, [1, 2], some "origin"⟩ = .ok ⟨.point, [1, 2], none⟩ :=
  copy_same_class_drops_name ⟨.point, [1, 2], some "origin"⟩ (fun _ => rfl)

/-- Counterexample to claim C7 as stated: dividing by a zero scalar (or by
an operand with a zero coordinate) raises nothing — both `/` and `//`
return an ordinary result, because numpy float division by zero only
emits a `RuntimeWarning` and produces `inf`/`nan` entries. -/
theorem div_by_zero_counterexample :
    (binop .truediv ⟨.vector, [1], none⟩ (.scalar 0)).isOk = true
    ∧ (binop .floordiv ⟨.vector, [1], none⟩ (.scalar 0)).isOk = true
    ∧ (binop .truediv ⟨.vector, [1, 2], none⟩
        (.inst ⟨.vector, [0, 1], none⟩)).isOk = true := by
  decide

/-- Claim C7 (amended): dividing (with `/` or `//`) by zero — a zero
scalar or an operand containing a zero coordinate — does not raise an
`ArithmeticError`; the operation completes normally (numpy emits a
`RuntimeWarning` and stores non-finite `inf`/`nan` entries). -/
theorem div_by_zero_silent :
    (∀ (c : List ℚ) (nm : Option String) (x : ℚ),
        (binop .truediv ⟨.vector, c, nm⟩ (.scalar x)).isOk = true
        ∧ (binop .floordiv ⟨.vector, c, nm⟩ (.scalar x)).isOk = true)
    ∧ (∀ v w : Vector, v.cls = .vector → w.cls = .vector →
        v.coordinates.length = w.coordinates.length →
        (binop .truediv v (.inst w)).isOk = true
        ∧ (binop .floordiv v (.inst w)).isOk = true) := by
  constructor
  · intro c nm x
    constructor <;> rfl
  · intro v w hv hw hl
    have hto : to_class VClass.vector (.inst w) false = .ok (.inst w) := by
      simp [to_class, hw]
    constructor <;>
      simp [binop, hv, hw, hto, isinstanceOf, broadcastPairs, hl, mkInstance,
        Except.isOk, Except.toBool]

/-- Witness for the amended C7 at concrete zero divisors. -/
theorem div_by_zero_silent_witness :
    (binop .truediv ⟨.vector, [3, 4], none⟩ (.scalar 0)).isOk = true
    ∧ (binop .floordiv ⟨.vector, [3, 4], none⟩
        (.inst ⟨.vector, [0, 2], none⟩)).isOk = true :=
  ⟨(div_by_zero_silent.1 [3, 4] none 0).1,
   (div_by_zero_silent.2 ⟨.vector, [3, 4], none⟩ ⟨.vector, [0, 2], none⟩
      rfl rfl rfl).2⟩

end GeoPy

namespace GeoPy

/-- For base-class operands, the comparison prefix coerces, validates and
produces the two magnitudes. -/
theorem cmpDistance_inst {v w : Vector} (hv : v.cls = .vector)
    (hw : w.cls = .vector) :
    cmpDistance v (.inst w) = .ok (magnitude v, magnitude w) := by
  have hto : to_class v.cls (.inst w) false = .ok (.inst w) := by
    simp [to_class, hw]
  simp only [cmpDistance]
  rw [hto]
  simp [check_class, isinstanceOf, hv, hw, distance_none_vector hv,
    distance_none_vector hw]

/-- For raw-sequence operands of a base-class receiver, the comparison
prefix builds a fresh base instance and produces the two magnitudes. -/
theorem cmpDistance_raw {v : Vector} (hv : v.cls = .vector) (t : List ℚ) :
    cmpDistance v (.raw t) = .ok (magnitude v, magnitude ⟨.vector, t, none⟩) := by
  have hto : to_class v.cls (.raw t) false
      = .ok (.inst ⟨.vector, t, none⟩) := by
    simp [to_class, hv, mkInstance, Except.map]
  simp only [cmpDistance]
  rw [hto]
  simp [check_class, isinstanceOf, hv, distance_none_vector hv,
    @distance_none_vector ⟨.vector, t, none⟩ rfl]

/-- Claim C2: every ordering operator compares magnitudes — after coercion
and type-checking, `self OP other` is exactly
`self.distance() OP other.distance()` — so `Vector((1,0)) < Vector((0,2))`
holds, `Vector((1,0)) <= Vector((0,1))` holds, while
`Vector((1,0)) == Vector((0,1))` is false despite the equal magnitudes. -/
theorem comparisons_by_magnitude :
    (∀ v w : Vector, v.cls = .vector → w.cls = .vector →
        ltOp v (.inst w) = .ok (magnitude v < magnitude w)
        ∧ gtOp v (.inst w) = .ok (magnitude v > magnitude w)
        ∧ leOp v (.inst w) = .ok (magnitude v ≤ magnitude w)
        ∧ geOp v (.inst w) = .ok (magnitude v ≥ magnitude w))
    ∧ (∀ (v : Vector) (t : List ℚ), v.cls = .vector →
        ltOp v (.raw t) = .ok (magnitude v < magnitude ⟨.vector, t, none⟩)
        ∧ gtOp v (.raw t) = .ok (magnitude v > magnitude ⟨.vector, t, none⟩)
        ∧ leOp v (.raw t) = .ok (magnitude v ≤ magnitude ⟨.vector, t, none⟩)
        ∧ geOp v (.raw t) = .ok (magnitude v ≥ magnitude ⟨.vector, t, none⟩))
    ∧ (∀ v : Vector, v.cls = .vector → distance v none = .ok (magnitude v))
    ∧ (∃ p, ltOp ⟨.vector, [1, 0], none⟩ (.inst ⟨.vector, [0, 2], none⟩)
        = .ok p ∧ p)
    ∧ (∃ p, leOp ⟨.vector, [1, 0], none⟩ (.inst ⟨.vector, [0, 1], none⟩)
        = .ok p ∧ p)
    ∧ eqOp ⟨.vector, [1, 0], none⟩ (.inst ⟨.vector, [0, 1], none⟩)
        = .ok false := by
  refine ⟨?_, ?_, fun v hv => distance_none_vector hv, ?_, ?_, by rfl⟩
  · intro v w hv hw
    exact ⟨by simp [ltOp, cmpDistance_inst hv hw, Except.map],
      by simp [gtOp, cmpDistance_inst hv hw, Except.map],
      by simp [leOp, cmpDistance_inst hv hw, Except.map],
      by simp [geOp, cmpDistance_inst hv hw, Except.map]⟩
  · intro v t hv
    exact ⟨by simp [ltOp, cmpDistance_raw hv, Except.map],
      by simp [gtOp, cmpDistance_raw hv, Except.map],
      by simp [leOp, cmpDistance_raw hv, Except.map],
      by simp [geOp, cmpDistance_raw hv, Except.map]⟩
  · have h := @cmpDistance_inst ⟨.vector, [1, 0], none⟩ ⟨.vector, [0, 2], none⟩
      rfl rfl
    refine ⟨magnitude ⟨.vector, [1, 0], none⟩ < magnitude ⟨.vector, [0, 2], none⟩,
      by simp [ltOp, h, Except.map], ?_⟩
    show Real.sqrt ((sumSq [1, 0] : ℚ) : ℝ) < Real.sqrt ((sumSq [0, 2] : ℚ) : ℝ)
    rw [show ((sumSq [1, 0] : ℚ) : ℝ) = 1 by norm_num [sumSq],
      show ((sumSq [0, 2] : ℚ) : ℝ) = 4 by norm_num [sumSq]]
    exact Real.sqrt_lt_sqrt (by norm_num) (by norm_num)
  · have h := @cmpDistance_inst ⟨.vector, [1, 0], none⟩ ⟨.vector, [0, 1], none⟩
      rfl rfl
    refine ⟨magnitude ⟨.vector, [1, 0], none⟩ ≤ magnitude ⟨.vector, [0, 1], none⟩,
      by simp [leOp, h, Except.map], ?_⟩
    show Real.sqrt ((sumSq [1, 0] : ℚ) : ℝ) ≤ Real.sqrt ((sumSq [0, 1] : ℚ) : ℝ)
    rw [show ((sumSq [1, 0] : ℚ) : ℝ) = 1 by norm_num [sumSq],
      show ((sumSq [0, 1] : ℚ) : ℝ) = 1 by norm_num [sumSq]]

/-- Witness for C2: the ordering operators of two concrete base vectors
evaluate to the comparison of their magnitudes. -/
theorem comparisons_by_magnitude_witness :
    ltOp ⟨.vector, [3, 4], none⟩ (.inst ⟨.vector, [1, 1], none⟩)
      = .ok (magnitude ⟨.vector, [3, 4], none⟩
          < magnitude ⟨.vector, [1, 1], none⟩) :=
  (comparisons_by_magnitude.1 ⟨.vector, [3, 4], none⟩ ⟨.vector, [1, 1], none⟩
    rfl rfl).1

/-- Claim C4: `distance` with no origin is the L2 norm against the zero
vector of the receiver's own dimensionality; with an explicit (coerced)
origin of matching length it is the square root of the sum of squared
per-axis differences; a coerced origin of a different length raises
`ValueError` (the spec's `DimensionMismatchError`); and
`Vector((3,4)).distance(Vector((0,0)))` equals `5.0`. -/
theorem distance_l2 :
    (∀ (c : List ℚ) (nm : Option String),
        distance ⟨.vector, c, nm⟩ none = .ok (Real.sqrt ((sumSq c : ℚ) : ℝ)))
    ∧ (∀ (c o : List ℚ) (nm nm2 : Option String), o.length = c.length →
        distance ⟨.vector, c, nm⟩ (some (.inst ⟨.vector, o, nm2⟩))
          = .ok (Real.sqrt ((sumSqDiff c o : ℚ) : ℝ)))
    ∧ (∀ (c t : List ℚ) (nm : Option String), t.length = c.length →
        distance ⟨.vector, c, nm⟩ (some (.raw t))
          = .ok (Real.sqrt ((sumSqDiff c t : ℚ) : ℝ)))
    ∧ (∀ (c o : List ℚ) (nm nm2 : Option String), o.length ≠ c.length →
        distance ⟨.vector, c, nm⟩ (some (.inst ⟨.vector, o, nm2⟩))
          = .error .valueError)
    ∧ distance ⟨.vector, [3, 4], none⟩ (some (.inst ⟨.vector, [0, 0], none⟩))
        = .ok 5
    ∧ distance ⟨.vector, [1, 2, 3], none⟩
        (some (.inst ⟨.vector, [1, 2], none⟩)) = .error .valueError := by
  refine ⟨fun c nm => distance_none_vector rfl, ?_, ?_, ?_, ?_, ?_⟩
  · intro c o nm nm2 hl
    simp [distance, to_class, distanceVal, hl]
  · intro c t nm hl
    simp [distance, to_class, mkInstance, distanceVal, hl, Except.map]
  · intro c o nm nm2 hl
    simp [distance, to_class, hl]
  · have h : distance ⟨.vector, [3, 4], none⟩
        (some (.inst ⟨.vector, [0, 0], none⟩))
        = .ok (Real.sqrt ((sumSqDiff [3, 4] [0, 0] : ℚ) : ℝ)) := by
      simp [distance, to_class, distanceVal]
    rw [h, show ((sumSqDiff [3, 4] [0, 0] : ℚ) : ℝ) = 5 ^ 2 by
      norm_num [sumSqDiff], Real.sqrt_sq (by norm_num : (0:ℝ) ≤ 5)]
  · simp [distance, to_class]

/-- Witness for C4: an explicit same-length origin yields the L2 distance
formula at a concrete input. -/
theorem distance_l2_witness :
    distance ⟨.vector, [3, 4], none⟩ (some (.inst ⟨.vector, [1, 1], none⟩))
      = .ok (Real.sqrt ((sumSqDiff [3, 4] [1, 1] : ℚ) : ℝ)) :=
  distance_l2.2.1 [3, 4] [1, 1] none none rfl

/-- Claim C5: equality coerces the operand, validates its type, and then
holds exactly when every coordinate matches (elementwise equality reduced
with logical AND, no tolerance): equal coordinate lists compare `True`,
and any differing coordinate makes the comparison `False`. -/
theorem eq_exact_coordinatewise :
    (∀ v w : Vector, v.cls = .vector → w.cls = .vector →
        v.coordinates.length = w.coordinates.length →
        eqOp v (.inst w) = .ok (decide (v.coordinates = w.coordinates)))
    ∧ (∀ (c : List ℚ) (nm nm2 : Option String),
        eqOp ⟨.vector, c, nm⟩ (.inst ⟨.vector, c, nm2⟩) = .ok true)
    ∧ (∀ (c c2 : List ℚ) (nm nm2 : Option String),
        c.length = c2.length → c ≠ c2 →
        eqOp ⟨.vector, c, nm⟩ (.inst ⟨.vector, c2, nm2⟩) = .ok false) := by
  have key : ∀ v w : Vector, v.cls = .vector → w.cls = .vector →
      v.coordinates.length = w.coordinates.length →
      eqOp v (.inst w) = .ok (decide (v.coordinates = w.coordinates)) := by
    intro v w hv hw hl
    have hto : to_class v.cls (.inst w) false = .ok (.inst w) := by
      simp [to_class, hw]
    simp only [eqOp]
    rw [hto]
    simp [check_class, isinstanceOf, hv, hw, broadcastPairs, hl,
      zip_all_decide _ _ hl]
  refine ⟨key, ?_, ?_⟩
  · intro c nm nm2
    simpa using key ⟨.vector, c, nm⟩ ⟨.vector, c, nm2⟩ rfl rfl rfl
  · intro c c2 nm nm2 hl hne
    simpa [hne] using key ⟨.vector, c, nm⟩ ⟨.vector, c2, nm2⟩ rfl rfl hl

/-- Witness for C5: two concrete vectors differing in one coordinate
compare unequal. -/
theorem eq_exact_coordinatewise_witness :
    eqOp ⟨.vector, [1, 2], none⟩ (.inst ⟨.vector, [1, 3], none⟩)
      = .ok false :=
  eq_exact_coordinatewise.2.2 [1, 2] [1, 3] none none rfl (by decide)

end GeoPy

namespace GeoPy

/-- Claim C3: every elementwise binary arithmetic operator re-wraps its
result in the receiver's runtime class (so a `Point` plus a raw pair is
again a `Point`, with its `x`/`y` accessors valid), while the dot-product
operator `@` hands numpy's bare scalar back without re-wrapping (its
codomain is a number, never an instance). -/
theorem arithmetic_runtime_type_closure :
    (∀ (op : BinOp) (v : Vector) (other : Operand) (r : Vector),
        binop op v other = .ok r → r.cls = v.cls)
    ∧ (∀ (px py : ℚ) (nm : Option String),
        binop .add ⟨.point, [px, py], nm⟩ (.raw [1, 1])
          = .ok ⟨.point, [px + 1, py + 1], none⟩
        ∧ xCoord ⟨.point, [px + 1, py + 1], none⟩ = some (px + 1)
        ∧ yCoord ⟨.point, [px + 1, py + 1], none⟩ = some (py + 1))
    ∧ (∀ v w : Vector, v.cls = .vector →
        v.coordinates.length = w.coordinates.length →
        matmul v (.inst w) = .ok (dotQ v.coordinates w.coordinates)) := by
  refine ⟨?_, ?_, ?_⟩
  · intro op v other r h
    simp only [binop] at h
    split at h
    · cases h
    case _ w =>
      split at h
      · split at h
        · cases h
        · exact mkInstance_cls h
      · cases h
    case _ x => exact mkInstance_cls h
  · intro px py nm
    refine ⟨?_, rfl, rfl⟩
    simp [binop, to_class, mkInstance, isinstanceOf, broadcastPairs, elemFn,
      Except.map]
  · intro v w hv hl
    have hto : ∃ u : Vector, u.cls = .vector ∧ u.coordinates = w.coordinates
        ∧ to_class v.cls (.inst w) false = .ok (.inst u) := by
      cases hw : w.cls with
      | point => exact ⟨⟨.vector, w.coordinates, none⟩, rfl, rfl,
          by simp [to_class, hw]⟩
      | vector => exact ⟨w, hw, rfl, by simp [to_class, hw]⟩
    obtain ⟨u, hu, huc, hto⟩ := hto
    rw [hv] at hto
    simp [matmul, hv, hto, hu, huc, isinstanceOf, hl]

/-- Witness for C3 at a concrete input: a `Point` plus the raw pair
`(1, 1)` is again a `Point` with valid accessors. -/
theorem arithmetic_runtime_type_closure_witness :
    binop .add ⟨.point, [2, 3], none⟩ (.raw [1, 1])
      = .ok ⟨.point, [2 + 1, 3 + 1], none⟩
    ∧ xCoord ⟨.point, [2 + 1, 3 + 1], none⟩ = some (2 + 1)
    ∧ yCoord ⟨.point, [2 + 1, 3 + 1], none⟩ = some (3 + 1) :=
  arithmetic_runtime_type_closure.2.1 2 3 none

/-- Claim C6: for a base-class receiver, handing a raw tuple to any binary
operator is indistinguishable from handing it the equivalent `Vector`
instance — the coercion protocol maps both operands to the same coerced
value before the operator proper runs. -/
theorem raw_operand_equals_vector_operand (v : Vector)
    (hv : v.cls = .vector) (t : List ℚ) :
    (∀ op : BinOp, binop op v (.raw t) = binop op v (.inst ⟨.vector, t, none⟩))
    ∧ matmul v (.raw t) = matmul v (.inst ⟨.vector, t, none⟩)
    ∧ eqOp v (.raw t) = eqOp v (.inst ⟨.vector, t, none⟩)
    ∧ ltOp v (.raw t) = ltOp v (.inst ⟨.vector, t, none⟩)
    ∧ gtOp v (.raw t) = gtOp v (.inst ⟨.vector, t, none⟩)
    ∧ leOp v (.raw t) = leOp v (.inst ⟨.vector, t, none⟩)
    ∧ geOp v (.raw t) = geOp v (.inst ⟨.vector, t, none⟩) := by
  have hraw : to_class v.cls (.raw t) false
      = .ok (.inst ⟨.vector, t, none⟩) := by
    simp [to_class, hv, mkInstance, Except.map]
  have hinst : to_class v.cls (.inst ⟨.vector, t, none⟩) false
      = .ok (.inst ⟨.vector, t, none⟩) := by
    simp [to_class]
  have hcmp : cmpDistance v (.raw t)
      = cmpDistance v (.inst ⟨.vector, t, none⟩) := by
    simp only [cmpDistance]
    rw [hraw, hinst]
  refine ⟨?_, ?_, ?_, ?_, ?_, ?_, ?_⟩
  · intro op
    simp only [binop]
    rw [hraw, hinst]
  · simp only [matmul]
    rw [hraw, hinst]
  · simp only [eqOp]
    rw [hraw, hinst]
  · simp only [ltOp, hcmp]
  · simp only [gtOp, hcmp]
  · simp only [leOp, hcmp]
  · simp only [geOp, hcmp]

/-- Witness for C6: adding the raw pair `(4, 5)` to a concrete base vector
gives the same result as adding `Vector((4, 5))`. -/
theorem raw_operand_equals_vector_operand_witness :
    binop .add ⟨.vector, [2, 3], none⟩ (.raw [4, 5])
      = binop .add ⟨.vector, [2, 3], none⟩ (.inst ⟨.vector, [4, 5], none⟩) :=
  (raw_operand_equals_vector_operand ⟨.vector, [2, 3], none⟩ rfl [4, 5]).1 .add

end GeoPy
